import Mathlib

/-!
Shallow embedding of `src/main.rs` of the ringbit_line_follower firmware:
a microbit line-follower that classifies a photocell reading into one of
five drive commands, drives two servo PWM channels from TIMER0 compare
registers, and polls two buttons for an enable flag.

The TIMER0 interrupt handler is embedded as a pure step function on its
persistent state (`STATE`, `PHOTO_CELL`, `IS_ON`), parameterised by the
contents of the shared cells and the sensor outcome, and returning the new
state together with a trace of the observable effects (register writes,
sensor read, flag read, display request, critical-section brackets).
The button-polling loop body and the initialisation sequence of `main` are
embedded the same way.
-/

namespace Ringbit

/-- Rust `enum CarState`. -/
inductive CarState
  | Stopped
  | Forward
  | Left
  | Right
  | Back
deriving DecidableEq, Repr

/-- Rust `struct StateSpeed { state, lspeed, rspeed }`; speeds are `u32` ticks. -/
structure StateSpeed where
  state : CarState
  lspeed : Nat
  rspeed : Nat
deriving DecidableEq, Repr

/-- Rust `const STATE_STOPPED`. -/
def STATE_STOPPED : StateSpeed := ⟨CarState.Stopped, 1500, 1500⟩

/-- Rust `const STATE_FORWARD`. -/
def STATE_FORWARD : StateSpeed := ⟨CarState.Forward, 2500, 500⟩

/-- Rust `const STATE_BACK`. -/
def STATE_BACK : StateSpeed := ⟨CarState.Back, 500, 2500⟩

/-- Rust `const STATE_LEFT`. -/
def STATE_LEFT : StateSpeed := ⟨CarState.Left, 2500, 1500⟩

/-- Rust `const STATE_RIGHT`. -/
def STATE_RIGHT : StateSpeed := ⟨CarState.Right, 1500, 500⟩

/-- Lower bound of `i16` (`i16::MIN`). -/
def i16Min : Int := -32768

/-- Upper bound of `i16` (`i16::MAX`). -/
def i16Max : Int := 32767

/-- The value is representable as an `i16`, the type of `PHOTO_CELL`. -/
def isI16 (v : Int) : Prop := i16Min ≤ v ∧ v ≤ i16Max

instance (v : Int) : Decidable (isI16 v) := by
  unfold isI16; infer_instance

/-- Rust `const SMILE` 5x5 bitmap. -/
def SMILE : List (List Nat) :=
  [[0, 1, 0, 1, 0], [1, 0, 1, 0, 1], [0, 0, 1, 0, 0], [1, 0, 0, 0, 1], [0, 1, 1, 1, 0]]

/-- Rust `const ARROW_LEFT` 5x5 bitmap. -/
def ARROW_LEFT : List (List Nat) :=
  [[0, 0, 1, 0, 0], [0, 1, 0, 0, 0], [1, 1, 1, 1, 1], [0, 1, 0, 0, 0], [0, 0, 1, 0, 0]]

/-- Rust `const ARROW_RIGHT` 5x5 bitmap. -/
def ARROW_RIGHT : List (List Nat) :=
  [[0, 0, 1, 0, 0], [0, 0, 0, 1, 0], [1, 1, 1, 1, 1], [0, 0, 0, 1, 0], [0, 0, 1, 0, 0]]

/-- Rust `const ARROW_DOWN` 5x5 bitmap. -/
def ARROW_DOWN : List (List Nat) :=
  [[0, 0, 1, 0, 0], [0, 0, 1, 0, 0], [1, 0, 1, 0, 1], [0, 1, 1, 1, 0], [0, 0, 1, 0, 0]]

/-- Rust `const ARROW_UP` 5x5 bitmap. -/
def ARROW_UP : List (List Nat) :=
  [[0, 0, 1, 0, 0], [0, 1, 1, 1, 0], [1, 0, 1, 0, 1], [0, 0, 1, 0, 0], [0, 0, 1, 0, 0]]

/-- Register names used by the initialisation writes in `main` (besides `cc`). -/
inductive RegName
  | mode
  | bitmode
  | shorts
  | intenset
deriving DecidableEq, Repr

/-- Observable effects of the embedded code, in program order. -/
inductive Event
  | critEnter
  | critExit
  | ccWrite (ch : Nat) (val : Nat)
  | compareEventClear
  | sensorRead
  | onoffRead
  | showIcon (img : List (List Nat))
  | setOnoff (b : Bool)
  | setServoTimer
  | setDisplay
  | setAnalog
  | regWrite (r : RegName) (v : Nat)
  | taskStart
  | unmaskTimer0
  | unmaskTimer1
deriving DecidableEq, Repr

/-- Contents of the four `static Mutex<RefCell<Option<_>>>` cells; the handle
cells carry no data relevant to the model beyond their presence. -/
structure SharedCells where
  SERVO_TIMER : Option Unit
  DISPLAY : Option Unit
  ANALOG : Option Unit
  ONOFF : Option Bool
deriving DecidableEq, Repr

/-- The static initialisers: every cell starts as `None`. -/
def staticCells : SharedCells := ⟨none, none, none, none⟩

/-- The match inside Rust `fn display(cstate: &CarState)` selecting which
bitmap to pass to `display.show`. -/
def iconFor : CarState → List (List Nat)
  | CarState.Stopped => SMILE
  | CarState.Forward => ARROW_DOWN
  | CarState.Back => ARROW_UP
  | CarState.Left => ARROW_LEFT
  | CarState.Right => ARROW_RIGHT

/-- Rust `fn display(cstate: &CarState)`: inside a critical section, if the
`DISPLAY` cell is populated, show the icon matched from `cstate` by
`iconFor`. -/
def display (cells : SharedCells) (cstate : CarState) : List Event :=
  Event.critEnter ::
    (match cells.DISPLAY with
      | some _ => [Event.showIcon (iconFor cstate)]
      | none => []) ++ [Event.critExit]

/-- Persistent (`static mut`) state of the `TIMER0` handler. -/
structure HandlerState where
  STATE : StateSpeed
  PHOTO_CELL : Int
  IS_ON : Bool
deriving DecidableEq, Repr

/-- Initial values of the handler statics:
`STATE = STATE_STOPPED`, `PHOTO_CELL = 0`, `IS_ON = false`. -/
def TIMER0_init : HandlerState := ⟨STATE_STOPPED, 0, false⟩

/-- Outcome of `analog.converter.read(&mut analog.pin)` in one cycle. -/
inductive SensorResult
  | ok (v : Int)
  | err
deriving DecidableEq, Repr

/-- The value stored into `PHOTO_CELL` from a read outcome: `Ok(v)` stores
`v`, `Err(_)` stores `0`. -/
def sensorValue : SensorResult → Int
  | SensorResult.ok v => v
  | SensorResult.err => 0

/-- The decision match at the end of the `TIMER0` handler: if `IS_ON`,
classify `PHOTO_CELL` by the four range patterns (`i16::MIN..=64`,
`65..=220`, `221..=320`, `321..=i16::MAX`, tried in order); otherwise
`STATE_STOPPED`. The final catch-all duplicates the last arm so the
function is total on `Int`; the Rust match is exhaustive on `i16`. -/
def nextState (is_on : Bool) (photo : Int) : StateSpeed :=
  if is_on then
    if i16Min ≤ photo ∧ photo ≤ 64 then STATE_LEFT
    else if 65 ≤ photo ∧ photo ≤ 220 then STATE_FORWARD
    else if 221 ≤ photo ∧ photo ≤ 320 then STATE_BACK
    else if 321 ≤ photo ∧ photo ≤ i16Max then STATE_RIGHT
    else STATE_RIGHT
  else STATE_STOPPED

/-- Critical-section body of the `TIMER0` handler: write the current
command's widths into `cc[1]`/`cc[2]` and clear `events_compare[0]` (when
the timer cell is populated), perform the sensor read (when the analog cell
is populated), and read the enable flag (when the `ONOFF` cell is
populated). Returns the trace of this section, brackets included. -/
def TIMER0_crit (cells : SharedCells) (s : HandlerState) : List Event :=
  Event.critEnter ::
    (match cells.SERVO_TIMER with
      | some _ =>
        [Event.ccWrite 1 s.STATE.lspeed, Event.ccWrite 2 s.STATE.rspeed,
          Event.compareEventClear]
      | none => []) ++
    (match cells.ANALOG with
      | some _ => [Event.sensorRead]
      | none => []) ++
    (match cells.ONOFF with
      | some _ => [Event.onoffRead]
      | none => []) ++ [Event.critExit]

/-- One invocation of the `TIMER0` handler: the critical section (PWM
writes, event acknowledge, sensor read into `PHOTO_CELL`, flag read into
`IS_ON`), then the decision match updating `STATE`, then
`display(&STATE.state)`. Returns the new persistent state and the trace. -/
def TIMER0_step (cells : SharedCells) (sensor : SensorResult) (s : HandlerState) :
    HandlerState × List Event :=
  let photo : Int :=
    match cells.ANALOG with
      | some _ => sensorValue sensor
      | none => s.PHOTO_CELL
  let is_on : Bool :=
    match cells.ONOFF with
      | some b => b
      | none => s.IS_ON
  let s1 : HandlerState := ⟨nextState is_on photo, photo, is_on⟩
  (s1, TIMER0_crit cells s ++ display cells s1.STATE.state)

/-- Outcome of `button.is_low()` (`Result<bool, _>`). -/
inductive ButtonRead
  | okLow
  | okHigh
  | err
deriving DecidableEq, Repr

/-- True exactly when `if let Ok(true) = button.is_low()` takes its branch. -/
def buttonAsserted : ButtonRead → Bool
  | ButtonRead.okLow => true
  | ButtonRead.okHigh => false
  | ButtonRead.err => false

/-- One iteration of the polling loop in `main`: if button A reads low,
publish `ONOFF := Some(true)` in a critical section; then, if button B
reads low, publish `ONOFF := Some(false)` in a critical section. Returns
the new `ONOFF` contents and the trace. -/
def loop_iter (a b : ButtonRead) (onoff : Option Bool) : Option Bool × List Event :=
  let (onoff1, ev1) :=
    if buttonAsserted a then
      (some true, [Event.critEnter, Event.setOnoff true, Event.critExit])
    else (onoff, [])
  let (onoff2, ev2) :=
    if buttonAsserted b then
      (some false, [Event.critEnter, Event.setOnoff false, Event.critExit])
    else (onoff1, [])
  (onoff2, ev1 ++ ev2)

/-- The effect of `main`'s single initialisation critical section on the
shared cells: populate `ONOFF` with `Some(false)` and the three handle
cells. -/
def main_init_cells (c : SharedCells) : SharedCells :=
  { c with
    ONOFF := some false
    SERVO_TIMER := some ()
    DISPLAY := some ()
    ANALOG := some () }

/-- The shared cells right after initialisation. -/
def initCells : SharedCells := main_init_cells staticCells

/-- The straight-line trace of `main`'s TIMER0 setup and cell population,
in program order: `mode`, `bitmode`, `cc[0] := 20000`, `shorts`,
`cc[1] := 1500`, `cc[2] := 1500`, `tasks_start`, `intenset`, then one
critical section populating the four cells, then the two NVIC unmasks. -/
def main_init_events : List Event :=
  [Event.regWrite RegName.mode 0, Event.regWrite RegName.bitmode 0,
    Event.ccWrite 0 20000, Event.regWrite RegName.shorts 1,
    Event.ccWrite 1 1500, Event.ccWrite 2 1500,
    Event.taskStart, Event.regWrite RegName.intenset 65536,
    Event.critEnter, Event.setOnoff false, Event.setServoTimer,
    Event.setDisplay, Event.setAnalog, Event.critExit,
    Event.unmaskTimer0, Event.unmaskTimer1]

/-- Run the `TIMER0` handler over a list of per-cycle environments (cell
contents and sensor outcome), concatenating the traces. -/
def runTIMER0 : List (SharedCells × SensorResult) → HandlerState →
    HandlerState × List Event
  | [], s => (s, [])
  | (c, r) :: rest, s =>
    let p1 := TIMER0_step c r s
    let p2 := runTIMER0 rest p1.1
    (p2.1, p1.2 ++ p2.2)

/-- The `(left, right)` pairs written into the two servo compare registers:
each cycle writes `cc[1]` immediately followed by `cc[2]`. -/
def pairWrites : List Event → List (Nat × Nat)
  | Event.ccWrite 1 l :: Event.ccWrite 2 r :: rest => (l, r) :: pairWrites rest
  | _ :: rest => pairWrites rest
  | [] => []

/-- The `StateSpeed` constant assigned for each command: every assignment
to `STATE` in the program uses one of these five constants. -/
def profileFor : CarState → StateSpeed
  | CarState.Stopped => STATE_STOPPED
  | CarState.Forward => STATE_FORWARD
  | CarState.Back => STATE_BACK
  | CarState.Left => STATE_LEFT
  | CarState.Right => STATE_RIGHT

/-! Helper lemmas. -/

/-- The decision match always yields one of the five profile constants. -/
lemma nextState_profile (b : Bool) (v : Int) :
    nextState b v = profileFor (nextState b v).state := by
  cases b <;> simp only [nextState]
  · rfl
  · split_ifs <;> rfl

/-- The new `STATE` is the decision match applied to the new cached flag
and the new stored reading. -/
lemma TIMER0_step_STATE (c : SharedCells) (r : SensorResult) (s : HandlerState) :
    ((TIMER0_step c r s).1).STATE =
      nextState ((TIMER0_step c r s).1).IS_ON ((TIMER0_step c r s).1).PHOTO_CELL := rfl

/-- Classification table of `nextState` on `i16` values with the flag set. -/
lemma nextState_table (v : Int) (hv : isI16 v) :
    (nextState true v = STATE_LEFT ↔ v ≤ 64) ∧
    (nextState true v = STATE_FORWARD ↔ (65 ≤ v ∧ v ≤ 220)) ∧
    (nextState true v = STATE_BACK ↔ (221 ≤ v ∧ v ≤ 320)) ∧
    (nextState true v = STATE_RIGHT ↔ 321 ≤ v) := by
  obtain ⟨hlo, hhi⟩ := hv
  simp only [i16Min, i16Max] at hlo hhi
  simp only [nextState, i16Min, i16Max, if_true]
  split_ifs with h1 h2 h3 h4 <;>
    simp [STATE_LEFT, STATE_FORWARD, STATE_BACK, STATE_RIGHT,
      StateSpeed.mk.injEq] <;> omega

/-- Trace of `display` when the `DISPLAY` cell is populated. -/
lemma display_some (c : SharedCells) (cstate : CarState) (hD : c.DISPLAY = some ()) :
    display c cstate = [Event.critEnter, Event.showIcon (iconFor cstate), Event.critExit] := by
  simp [display, hD]

/-- Trace of one handler invocation when all four cells are populated. -/
lemma TIMER0_step_trace (c : SharedCells) (r : SensorResult) (s : HandlerState) (b : Bool)
    (hT : c.SERVO_TIMER = some ()) (hD : c.DISPLAY = some ())
    (hA : c.ANALOG = some ()) (hO : c.ONOFF = some b) :
    (TIMER0_step c r s).2 =
      [Event.critEnter, Event.ccWrite 1 s.STATE.lspeed, Event.ccWrite 2 s.STATE.rspeed,
        Event.compareEventClear, Event.sensorRead, Event.onoffRead, Event.critExit,
        Event.critEnter, Event.showIcon (iconFor (nextState b (sensorValue r)).state),
        Event.critExit] := by
  simp [TIMER0_step, TIMER0_crit, display, hT, hD, hA, hO]

/-- The compare-register pairs extracted from the trace of one invocation:
exactly the pre-invocation `STATE`'s widths when the timer cell is
populated, nothing otherwise. -/
lemma pairWrites_step (c : SharedCells) (r : SensorResult) (s : HandlerState) :
    pairWrites ((TIMER0_step c r s).2) =
      if c.SERVO_TIMER.isSome then [(s.STATE.lspeed, s.STATE.rspeed)] else [] := by
  obtain ⟨st, di, an, oo⟩ := c
  cases st <;> cases di <;> cases an <;> cases oo <;>
    simp [TIMER0_step, TIMER0_crit, display, pairWrites]

/-- Extracting pairs distributes over appending a tail to one invocation's
trace (the trace ends in `critExit`, so no pair straddles the boundary). -/
lemma pairWrites_step_append (c : SharedCells) (r : SensorResult) (s : HandlerState)
    (tl : List Event) :
    pairWrites ((TIMER0_step c r s).2 ++ tl) =
      pairWrites ((TIMER0_step c r s).2) ++ pairWrites tl := by
  obtain ⟨st, di, an, oo⟩ := c
  cases st <;> cases di <;> cases an <;> cases oo <;>
    simp [TIMER0_step, TIMER0_crit, display, pairWrites]

/-- Over any run, every compare-register pair comes from a state whose
`STATE` is a profile constant, hence is one of the five width pairs. -/
lemma runTIMER0_pairs (inputs : List (SharedCells × SensorResult)) (s : HandlerState)
    (hs : s.STATE = profileFor s.STATE.state) :
    ∀ p ∈ pairWrites ((runTIMER0 inputs s).2),
      p ∈ [(1500, 1500), (2500, 500), (500, 2500), (2500, 1500), (1500, 500)] := by
  induction inputs generalizing s with
  | nil => intro p hp; simp [runTIMER0, pairWrites] at hp
  | cons cr rest ih =>
    intro p hp
    obtain ⟨c, r⟩ := cr
    rw [runTIMER0] at hp
    simp only at hp
    rw [pairWrites_step_append, List.mem_append] at hp
    rcases hp with hp | hp
    · rw [pairWrites_step] at hp
      by_cases hsome : c.SERVO_TIMER.isSome
      · simp only [hsome, if_true, List.mem_singleton] at hp
        subst hp
        rw [hs]
        rcases s.STATE.state <;> simp [profileFor, STATE_STOPPED, STATE_FORWARD,
          STATE_BACK, STATE_LEFT, STATE_RIGHT]
      · simp [hsome] at hp
    · exact ih (TIMER0_step c r s).1
        (by rw [TIMER0_step_STATE]; exact nextState_profile _ _) p hp

/-! Claim theorems. -/

/-- C1: when the cached enable flag is true, the command decided by one
`TIMER0` invocation follows the classification table exactly on its cached
`i16` reading: Left iff the reading is at most 64, Forward iff it lies in
65..220, Back iff it lies in 221..320, Right iff it is at least 321 — so
every `i16` value falls into exactly one bin, with the stated boundaries. -/
theorem claim_C1 (c : SharedCells) (r : SensorResult) (s : HandlerState)
    (hOn : ((TIMER0_step c r s).1).IS_ON = true)
    (hv : isI16 (((TIMER0_step c r s).1).PHOTO_CELL)) :
    (((TIMER0_step c r s).1).STATE = STATE_LEFT ↔
      ((TIMER0_step c r s).1).PHOTO_CELL ≤ 64) ∧
    (((TIMER0_step c r s).1).STATE = STATE_FORWARD ↔
      (65 ≤ ((TIMER0_step c r s).1).PHOTO_CELL ∧
        ((TIMER0_step c r s).1).PHOTO_CELL ≤ 220)) ∧
    (((TIMER0_step c r s).1).STATE = STATE_BACK ↔
      (221 ≤ ((TIMER0_step c r s).1).PHOTO_CELL ∧
        ((TIMER0_step c r s).1).PHOTO_CELL ≤ 320)) ∧
    (((TIMER0_step c r s).1).STATE = STATE_RIGHT ↔
      321 ≤ ((TIMER0_step c r s).1).PHOTO_CELL) := by
  have h := TIMER0_step_STATE c r s
  rw [hOn] at h
  rw [h]
  exact nextState_table _ hv

/-- Witness for C1 at concrete inputs: enabled cells, a successful read of
the boundary value 64, starting from the initial handler state. -/
theorem claim_C1_witness :
    ((TIMER0_step ⟨some (), some (), some (), some true⟩ (SensorResult.ok 64)
      TIMER0_init).1).STATE = STATE_LEFT :=
  ((claim_C1 ⟨some (), some (), some (), some true⟩ (SensorResult.ok 64)
    TIMER0_init (by decide) (by decide)).1).2 (by decide)

/-- C2: whenever the cached enable flag is false at the end of an
invocation, the command decided for the next cycle is `STATE_STOPPED`,
regardless of the sensor outcome (failed reads included). -/
theorem claim_C2 (c : SharedCells) (r : SensorResult) (s : HandlerState)
    (hOff : ((TIMER0_step c r s).1).IS_ON = false) :
    ((TIMER0_step c r s).1).STATE = STATE_STOPPED := by
  have h := TIMER0_step_STATE c r s
  rw [hOff] at h
  exact h

/-- Witness for C2 at concrete inputs: freshly initialised cells (flag
false) and a failed sensor read. -/
theorem claim_C2_witness :
    ((TIMER0_step initCells SensorResult.err TIMER0_init).1).STATE = STATE_STOPPED :=
  claim_C2 initCells SensorResult.err TIMER0_init (by decide)

/-- C3: when the current command's profile is `profileFor cmd`, the pair
written to the two compare registers is exactly that profile's widths; the
five profiles carry the widths of the table (Stopped 1500/1500, Forward
2500/500, Back 500/2500, Left 2500/1500, Right 1500/500); and over any run
from the initial handler state no pair outside these five is ever
written. -/
theorem claim_C3 (c : SharedCells) (r : SensorResult) (s : HandlerState) (cmd : CarState)
    (inputs : List (SharedCells × SensorResult))
    (hT : c.SERVO_TIMER = some ()) (hs : s.STATE = profileFor cmd) :
    pairWrites ((TIMER0_step c r s).2) =
      [((profileFor cmd).lspeed, (profileFor cmd).rspeed)] ∧
    ((STATE_STOPPED.lspeed, STATE_STOPPED.rspeed) = (1500, 1500) ∧
      (STATE_FORWARD.lspeed, STATE_FORWARD.rspeed) = (2500, 500) ∧
      (STATE_BACK.lspeed, STATE_BACK.rspeed) = (500, 2500) ∧
      (STATE_LEFT.lspeed, STATE_LEFT.rspeed) = (2500, 1500) ∧
      (STATE_RIGHT.lspeed, STATE_RIGHT.rspeed) = (1500, 500)) ∧
    ∀ p ∈ pairWrites ((runTIMER0 inputs TIMER0_init).2),
      p ∈ [(1500, 1500), (2500, 500), (500, 2500), (2500, 1500), (1500, 500)] := by
  refine ⟨?_, by decide, runTIMER0_pairs inputs TIMER0_init (by decide)⟩
  rw [pairWrites_step, hs, hT]
  rfl

/-- Witness for C3 at concrete inputs: populated cells, one run step, the
Stopped profile. -/
theorem claim_C3_witness :
    pairWrites ((TIMER0_step initCells (SensorResult.ok 10) TIMER0_init).2) =
      [((profileFor CarState.Stopped).lspeed, (profileFor CarState.Stopped).rspeed)] :=
  (claim_C3 initCells (SensorResult.ok 10) TIMER0_init CarState.Stopped
    [(initCells, SensorResult.ok 10)] (by decide) (by decide)).1

/-- C4: an invocation writes to the compare registers exactly the widths of
the command decided by the previous invocation (the pre-invocation
`STATE`), and the command it decides itself is first written during the
next invocation; if the newly decided widths differ from the previous ones
they do not appear among the current invocation's writes. -/
theorem claim_C4 (c1 c2 : SharedCells) (r1 r2 : SensorResult) (s : HandlerState)
    (h1 : c1.SERVO_TIMER = some ()) (h2 : c2.SERVO_TIMER = some ()) :
    pairWrites ((TIMER0_step c1 r1 s).2) = [(s.STATE.lspeed, s.STATE.rspeed)] ∧
    pairWrites ((TIMER0_step c2 r2 (TIMER0_step c1 r1 s).1).2) =
      [(((TIMER0_step c1 r1 s).1).STATE.lspeed,
        ((TIMER0_step c1 r1 s).1).STATE.rspeed)] ∧
    ((((TIMER0_step c1 r1 s).1).STATE.lspeed,
        ((TIMER0_step c1 r1 s).1).STATE.rspeed) ≠ (s.STATE.lspeed, s.STATE.rspeed) →
      (((TIMER0_step c1 r1 s).1).STATE.lspeed,
        ((TIMER0_step c1 r1 s).1).STATE.rspeed) ∉ pairWrites ((TIMER0_step c1 r1 s).2)) := by
  have e1 : pairWrites ((TIMER0_step c1 r1 s).2) = [(s.STATE.lspeed, s.STATE.rspeed)] := by
    rw [pairWrites_step, h1]; rfl
  refine ⟨e1, ?_, ?_⟩
  · rw [pairWrites_step, h2]; rfl
  · intro hne hmem
    rw [e1, List.mem_singleton] at hmem
    exact hne hmem

/-- Witness for C4 at concrete inputs: populated cells in both cycles, an
enabled flag and a reading of 150, so the decided command differs from the
initial Stopped. -/
theorem claim_C4_witness :
    pairWrites ((TIMER0_step ⟨some (), some (), some (), some true⟩
        (SensorResult.ok 150) TIMER0_init).2) =
      [(TIMER0_init.STATE.lspeed, TIMER0_init.STATE.rspeed)] :=
  (claim_C4 ⟨some (), some (), some (), some true⟩ ⟨some (), some (), some (), some true⟩
    (SensorResult.ok 150) (SensorResult.ok 150) TIMER0_init (by decide) (by decide)).1

/-- C5: a failed sensor read is observably identical to a successful read
of 0 — the whole invocation result (new state and trace) coincides — so the
stored reading is 0 and, when the enable flag cell holds true, the decided
command is Left. -/
theorem claim_C5 (c : SharedCells) (s : HandlerState)
    (hA : c.ANALOG = some ()) :
    TIMER0_step c SensorResult.err s = TIMER0_step c (SensorResult.ok 0) s ∧
    ((TIMER0_step c SensorResult.err s).1).PHOTO_CELL = 0 ∧
    (c.ONOFF = some true → ((TIMER0_step c SensorResult.err s).1).STATE = STATE_LEFT) := by
  refine ⟨rfl, ?_, ?_⟩
  · simp [TIMER0_step, hA, sensorValue]
  · intro hO
    simp [TIMER0_step, hA, hO, sensorValue]
    decide

/-- Witness for C5 at concrete inputs: enabled populated cells and a failed
read. -/
theorem claim_C5_witness :
    ((TIMER0_step ⟨some (), some (), some (), some true⟩ SensorResult.err
      TIMER0_init).1).STATE = STATE_LEFT :=
  (claim_C5 ⟨some (), some (), some (), some true⟩ TIMER0_init
    (by decide)).2.2 (by decide)

/-- C6: with the display cell populated, an invocation's trace is its
critical section followed by exactly one show request, issued after that
section, carrying the icon fixed for the newly decided command, where the
icon table maps Stopped to the smile, Forward to the down-arrow, Back to
the up-arrow, Left to the left-arrow and Right to the right-arrow. -/
theorem claim_C6 (c : SharedCells) (r : SensorResult) (s : HandlerState)
    (hD : c.DISPLAY = some ()) :
    (TIMER0_step c r s).2 =
      TIMER0_crit c s ++
        [Event.critEnter, Event.showIcon (iconFor (((TIMER0_step c r s).1).STATE.state)),
          Event.critExit] ∧
    iconFor CarState.Stopped = SMILE ∧ iconFor CarState.Forward = ARROW_DOWN ∧
    iconFor CarState.Back = ARROW_UP ∧ iconFor CarState.Left = ARROW_LEFT ∧
    iconFor CarState.Right = ARROW_RIGHT := by
  refine ⟨?_, rfl, rfl, rfl, rfl, rfl⟩
  show TIMER0_crit c s ++ display c _ = _
  rw [display_some c _ hD]
  rfl

/-- Witness for C6 at concrete inputs: populated cells and a reading of
150 from the initial state. -/
theorem claim_C6_witness :
    (TIMER0_step initCells (SensorResult.ok 150) TIMER0_init).2 =
      TIMER0_crit initCells TIMER0_init ++
        [Event.critEnter,
          Event.showIcon (iconFor (((TIMER0_step initCells (SensorResult.ok 150)
            TIMER0_init).1).STATE.state)),
          Event.critExit] :=
  (claim_C6 initCells (SensorResult.ok 150) TIMER0_init (by decide)).1

/-- C7: with all four cells populated, one invocation's trace is exactly:
enter the critical section, write the current command's left then right
widths, clear the period-start compare event, perform the sensor read,
read the enable flag, exit the critical section — and only then the display
request for the freshly decided command. -/
theorem claim_C7 (c : SharedCells) (r : SensorResult) (s : HandlerState) (b : Bool)
    (hT : c.SERVO_TIMER = some ()) (hD : c.DISPLAY = some ())
    (hA : c.ANALOG = some ()) (hO : c.ONOFF = some b) :
    (TIMER0_step c r s).2 =
      [Event.critEnter, Event.ccWrite 1 s.STATE.lspeed, Event.ccWrite 2 s.STATE.rspeed,
        Event.compareEventClear, Event.sensorRead, Event.onoffRead, Event.critExit,
        Event.critEnter, Event.showIcon (iconFor (nextState b (sensorValue r)).state),
        Event.critExit] :=
  TIMER0_step_trace c r s b hT hD hA hO

/-- Witness for C7 at concrete inputs: the freshly initialised cells, a
successful read of 150, the initial handler state. -/
theorem claim_C7_witness :
    (TIMER0_step initCells (SensorResult.ok 150) TIMER0_init).2 =
      [Event.critEnter, Event.ccWrite 1 TIMER0_init.STATE.lspeed,
        Event.ccWrite 2 TIMER0_init.STATE.rspeed,
        Event.compareEventClear, Event.sensorRead, Event.onoffRead, Event.critExit,
        Event.critEnter,
        Event.showIcon (iconFor (nextState false (sensorValue (SensorResult.ok 150))).state),
        Event.critExit] :=
  claim_C7 initCells (SensorResult.ok 150) TIMER0_init false
    (by decide) (by decide) (by decide) (by decide)

/-- C8: in one poller iteration, an asserted button A publishes true, an
asserted button B publishes false and leaves the flag false at the end of
the iteration, every publish is bracketed in its own critical section, and
when both are asserted B's publish follows A's in the trace, so the
iteration ends with the flag false. -/
theorem claim_C8 (a b : ButtonRead) (onoff : Option Bool) :
    (buttonAsserted a = true → Event.setOnoff true ∈ (loop_iter a b onoff).2) ∧
    (buttonAsserted b = true →
      Event.setOnoff false ∈ (loop_iter a b onoff).2 ∧
        (loop_iter a b onoff).1 = some false) ∧
    (loop_iter a b onoff).2 =
      (if buttonAsserted a then
        [Event.critEnter, Event.setOnoff true, Event.critExit] else []) ++
      (if buttonAsserted b then
        [Event.critEnter, Event.setOnoff false, Event.critExit] else []) ∧
    (buttonAsserted a = true → buttonAsserted b = true →
      (loop_iter a b onoff).1 = some false ∧
        (loop_iter a b onoff).2 =
          [Event.critEnter, Event.setOnoff true, Event.critExit,
            Event.critEnter, Event.setOnoff false, Event.critExit]) := by
  cases ha : buttonAsserted a <;> cases hb : buttonAsserted b <;>
    simp [loop_iter, ha, hb]

/-- Witness for C8 at concrete inputs: both buttons read low. -/
theorem claim_C8_witness :
    (loop_iter ButtonRead.okLow ButtonRead.okLow none).1 = some false ∧
      (loop_iter ButtonRead.okLow ButtonRead.okLow none).2 =
        [Event.critEnter, Event.setOnoff true, Event.critExit,
          Event.critEnter, Event.setOnoff false, Event.critExit] :=
  (claim_C8 ButtonRead.okLow ButtonRead.okLow none).2.2.2 (by decide) (by decide)

/-- C9: the four shared cells all start unset; initialisation leaves all
four populated with the enable flag false, performing the four writes
inside the single critical section of the startup trace and before either
interrupt is unmasked; the poller only ever stores populated values back
into the flag cell; and on the populated cells an invocation's trace shows
the full work sequence — no branch that skips work on an unset cell is
taken. -/
theorem claim_C9 (a b : ButtonRead) (r : SensorResult) (s : HandlerState)
    (c : SharedCells) (hOn : c.ONOFF.isSome) :
    staticCells = ⟨none, none, none, none⟩ ∧
    initCells = ⟨some (), some (), some (), some false⟩ ∧
    main_init_events.count Event.critEnter = 1 ∧
    (main_init_events.indexOf Event.critEnter <
        main_init_events.indexOf (Event.setOnoff false) ∧
      main_init_events.indexOf Event.critEnter <
        main_init_events.indexOf Event.setServoTimer ∧
      main_init_events.indexOf Event.critEnter <
        main_init_events.indexOf Event.setDisplay ∧
      main_init_events.indexOf Event.critEnter <
        main_init_events.indexOf Event.setAnalog) ∧
    (main_init_events.indexOf (Event.setOnoff false) <
        main_init_events.indexOf Event.critExit ∧
      main_init_events.indexOf Event.setServoTimer <
        main_init_events.indexOf Event.critExit ∧
      main_init_events.indexOf Event.setDisplay <
        main_init_events.indexOf Event.critExit ∧
      main_init_events.indexOf Event.setAnalog <
        main_init_events.indexOf Event.critExit) ∧
    (main_init_events.indexOf Event.critExit <
        main_init_events.indexOf Event.unmaskTimer0 ∧
      main_init_events.indexOf Event.critExit <
        main_init_events.indexOf Event.unmaskTimer1) ∧
    ((loop_iter a b c.ONOFF).1).isSome ∧
    (TIMER0_step initCells r s).2 =
      [Event.critEnter, Event.ccWrite 1 s.STATE.lspeed, Event.ccWrite 2 s.STATE.rspeed,
        Event.compareEventClear, Event.sensorRead, Event.onoffRead, Event.critExit,
        Event.critEnter, Event.showIcon (iconFor (nextState false (sensorValue r)).state),
        Event.critExit] := by
  refine ⟨rfl, rfl, by decide, by decide, by decide, by decide, ?_, ?_⟩
  · cases ha : buttonAsserted a <;> cases hb : buttonAsserted b <;>
      simp [loop_iter, ha, hb, hOn]
  · exact TIMER0_step_trace initCells r s false rfl rfl rfl rfl

/-- Witness for C9 at concrete inputs: both buttons idle, a failed read,
the initial handler state, the initialised cells. -/
theorem claim_C9_witness :
    ((loop_iter ButtonRead.okHigh ButtonRead.okHigh initCells.ONOFF).1).isSome :=
  (claim_C9 ButtonRead.okHigh ButtonRead.okHigh SensorResult.err TIMER0_init
    initCells (by decide)).2.2.2.2.2.2.1

/-- C10: in the startup trace both channel compare registers are loaded
with 1500 ticks before the timer is started and before TIMER0 is unmasked,
and 1500/1500 are exactly the Stopped profile's widths, so the first PWM
period already outputs the neutral pair. -/
theorem claim_C10 :
    Event.ccWrite 1 1500 ∈ main_init_events ∧
    Event.ccWrite 2 1500 ∈ main_init_events ∧
    main_init_events.indexOf (Event.ccWrite 1 1500) <
      main_init_events.indexOf Event.taskStart ∧
    main_init_events.indexOf (Event.ccWrite 2 1500) <
      main_init_events.indexOf Event.taskStart ∧
    main_init_events.indexOf Event.taskStart <
      main_init_events.indexOf Event.unmaskTimer0 ∧
    STATE_STOPPED.lspeed = 1500 ∧ STATE_STOPPED.rspeed = 1500 ∧
    pairWrites main_init_events = [(STATE_STOPPED.lspeed, STATE_STOPPED.rspeed)] := by
  decide

end Ringbit
